import Mathlib

/-!
Verification of the amazon-intelligent-shopping-assistant repository fragment:
a shallow embedding of `src/api/api/middleware.py` (RequestIDMiddleware) and
`src/api/rag/utils/prompt_management.py` (prompt_template_config), with
theorems settling the specification's claims about them.
-/

namespace Spec2Proof

/-! ## Data model for the correlation middleware (middleware.py) -/

/-- A starlette request, restricted to the fields `RequestIDMiddleware.dispatch`
touches: `request.method`, `request.url.path`, and the per-request context slot
`request.state.request_id` (absent before the middleware runs). -/
structure Request where
  method : String
  urlPath : String
  stateRequestId : Option String
deriving Repr, DecidableEq

/-- A starlette response, restricted to what the middleware can observe or
mutate: status code, header list (ordered, possibly repeated keys, as in the
raw header list), and body bytes (each a value below 256; no arithmetic is
performed on them). -/
structure Response where
  status : Nat
  headers : List (String × String)
  body : List Nat
deriving Repr, DecidableEq

/-- ASCII lowercasing of a header name, character by character, as starlette's
`key.lower().encode("latin-1")` normalisation does.  (Semantically this is
`String.toLower`; it is written over the character list so that it reduces in
the kernel.) -/
def lowerKey (s : String) : String :=
  String.mk (s.data.map Char.toLower)

/-- Header deletion by case-insensitive name, as starlette's
`MutableHeaders.__delitem__` does. -/
def removeHeader (hs : List (String × String)) (k : String) : List (String × String) :=
  hs.filter (fun p => lowerKey p.1 != lowerKey k)

/-- Header assignment `response.headers[k] = v`, modelling starlette's
`MutableHeaders.__setitem__`: the first entry whose name matches
case-insensitively is replaced, later duplicates are dropped, and if no entry
matches the pair is appended. -/
def setHeader : List (String × String) → String → String → List (String × String)
  | [], k, v => [(k, v)]
  | (k1, v1) :: rest, k, v =>
    if lowerKey k1 == lowerKey k then (k, v) :: removeHeader rest k
    else (k1, v1) :: setHeader rest k v

/-- Header lookup by case-insensitive name (first match), as starlette's
`Headers.__getitem__` / `.get`. -/
def getHeader : List (String × String) → String → Option String
  | [], _ => none
  | (k1, v1) :: rest, k =>
    if lowerKey k1 == lowerKey k then some v1 else getHeader rest k

/-- The start log record the middleware emits:
`f"Request started: {request.method} {request.url.path} (request_id: {request_id})"`. -/
def startLog (request : Request) (request_id : String) : String :=
  "Request started: " ++ request.method ++ " " ++ request.urlPath ++
    " (request_id: " ++ request_id ++ ")"

/-- The completion log record the middleware emits:
`f"Request completed: {request.method} {request.url.path} (request_id: {request_id})"`. -/
def completedLog (request : Request) (request_id : String) : String :=
  "Request completed: " ++ request.method ++ " " ++ request.urlPath ++
    " (request_id: " ++ request_id ++ ")"

/-- The observable outcome of one `dispatch` invocation: the request object as
the middleware leaves it, the log records emitted by the middleware in emission
order, and either the returned response or the propagated downstream failure. -/
structure DispatchOutcome (ε : Type) where
  finalRequest : Request
  logs : List String
  result : Except ε Response
deriving Repr

/-- Shallow embedding of `RequestIDMiddleware.dispatch`.  The fresh
`str(uuid.uuid4())` value is passed in as `request_id` (an arbitrary string);
the downstream pipeline `call_next` either returns a response or raises a
failure of type `ε`.  The body follows the source line by line: store the id in
`request.state.request_id`, emit the start log, await `call_next`; on success
set the `X-Request-ID` response header, emit the completion log, and return the
response; a raise from `call_next` propagates before the header assignment and
completion log are reached. -/
def dispatch {ε : Type} (request_id : String) (request : Request)
    (call_next : Request → Except ε Response) : DispatchOutcome ε :=
  let request1 := { request with stateRequestId := some request_id }
  match call_next request1 with
  | .error e => ⟨request1, [startLog request1 request_id], .error e⟩
  | .ok response =>
    let response1 := { response with
      headers := setHeader response.headers "X-Request-ID" request_id }
    ⟨request1, [startLog request1 request_id, completedLog request1 request_id],
      .ok response1⟩

/-! ## Header lemmas -/

theorem getHeader_setHeader_self (hs : List (String × String)) (k v : String) :
    getHeader (setHeader hs k v) k = some v := by
  induction hs with
  | nil => simp [setHeader, getHeader]
  | cons p rest ih =>
    obtain ⟨k1, v1⟩ := p
    by_cases h : lowerKey k1 == lowerKey k
    · simp [setHeader, h, getHeader]
    · simp only [setHeader, h, if_neg, Bool.false_eq_true, not_false_eq_true, ite_false]
      simp [getHeader, h, ih]

theorem getHeader_removeHeader_ne (hs : List (String × String)) (k k2 : String)
    (h : lowerKey k2 ≠ lowerKey k) :
    getHeader (removeHeader hs k) k2 = getHeader hs k2 := by
  induction hs with
  | nil => simp [removeHeader, getHeader]
  | cons p rest ih =>
    obtain ⟨k1, v1⟩ := p
    by_cases h1 : lowerKey k1 == lowerKey k
    · have hk1 : lowerKey k1 = lowerKey k := eq_of_beq h1
      have h12 : ¬ (lowerKey k1 == lowerKey k2) := by
        simp only [beq_iff_eq, hk1]
        exact fun he => h he.symm
      simp only [removeHeader, List.filter] at ih ⊢
      simp only [h1, bne, Bool.not_true]
      simpa [removeHeader, getHeader, h12] using ih
    · simp only [removeHeader, List.filter] at ih ⊢
      simp only [bne, h1, Bool.not_false]
      by_cases h12 : lowerKey k1 == lowerKey k2
      · simp [getHeader, h12]
      · simpa [getHeader, h12] using ih

theorem getHeader_setHeader_ne (hs : List (String × String)) (k v k2 : String)
    (h : lowerKey k2 ≠ lowerKey k) :
    getHeader (setHeader hs k v) k2 = getHeader hs k2 := by
  induction hs with
  | nil =>
    have hk : ¬ (lowerKey k == lowerKey k2) := by
      simp only [beq_iff_eq]
      exact fun he => h he.symm
    simp [setHeader, getHeader, hk]
  | cons p rest ih =>
    obtain ⟨k1, v1⟩ := p
    by_cases h1 : lowerKey k1 == lowerKey k
    · have hk : ¬ (lowerKey k == lowerKey k2) := by
        simp only [beq_iff_eq]
        exact fun he => h he.symm
      have hk1 : lowerKey k1 = lowerKey k := eq_of_beq h1
      have h12 : ¬ (lowerKey k1 == lowerKey k2) := by
        simp only [beq_iff_eq, hk1]
        exact fun he => h he.symm
      simp [setHeader, h1, getHeader, hk, h12, getHeader_removeHeader_ne rest k k2 h]
    · by_cases h12 : lowerKey k1 == lowerKey k2
      · simp [setHeader, h1, getHeader, h12]
      · simp [setHeader, h1, getHeader, h12, ih]

/-! ## Data model for the prompt template loader (prompt_management.py) -/

/-- A parsed YAML document, as `yaml.safe_load` produces it, restricted to the
node shapes the loader can encounter: `null` (what an empty file parses to),
scalar strings, and mappings with string keys. -/
inductive YamlValue where
  | null : YamlValue
  | str : String → YamlValue
  | map : List (String × YamlValue) → YamlValue
deriving Repr

/-- The distinct failure kinds `prompt_template_config` can surface: a
file-open failure (`FileNotFoundError` / `OSError`), a YAML parse failure
(`yaml.YAMLError`), a missing dictionary key (`KeyError`, carrying the key),
and a `TypeError` from subscripting a non-mapping value. -/
inductive LoaderError where
  | ioError : String → LoaderError
  | parseError : String → LoaderError
  | keyNotFound : String → LoaderError
  | typeError : String → LoaderError
deriving Repr, DecidableEq

/-- Modelled from the spec: the external templating engine's compiled template
object ("an object produced by parsing a template-source string, capable of
later being rendered with a set of variable bindings"); it retains its source
string. -/
structure Tmpl where
  source : String
deriving Repr, DecidableEq

/-- Modelled from the spec: `jinja2.Template`, the external templating engine's
"standard compilation step" turning a template-source string into a compiled
template object. -/
def Template (template_content : String) : Tmpl :=
  ⟨template_content⟩

def lbrace : Char := Char.ofNat 123

def rbrace : Char := Char.ofNat 125

/-- First-match association lookup used for rendering variable bindings. -/
def lookupBinding : List (String × String) → String → Option String
  | [], _ => none
  | (k1, v1) :: rest, k => if k1 == k then some v1 else lookupBinding rest k

/-- Strip leading and trailing spaces of a placeholder's variable name. -/
def trimSpaces (cs : List Char) : List Char :=
  ((cs.dropWhile (fun c => c == ' ')).reverse.dropWhile (fun c => c == ' ')).reverse

/-- Modelled from the spec: the character-level core of the external engine's
rendering ("exposes a render operation accepting a mapping of variable names to
values and returning the rendered text"): text outside `\x7b\x7b ... \x7d\x7d`
placeholders is copied verbatim, and each placeholder is replaced by the value
bound to its (space-trimmed) variable name, or by nothing when unbound.  The
accumulator holds the reversed characters of the placeholder being scanned. -/
def renderAux (bindings : List (String × String)) :
    Option (List Char) → List Char → List Char
  | none, [] => []
  | none, [c] => [c]
  | none, c :: c2 :: rest =>
    if c == lbrace && c2 == lbrace then renderAux bindings (some []) rest
    else c :: renderAux bindings none (c2 :: rest)
  | some _, [] => []
  | some _, [_] => []
  | some acc, c :: c2 :: rest =>
    if c == rbrace && c2 == rbrace then
      (match lookupBinding bindings (String.mk (trimSpaces acc.reverse)) with
       | some v => v.data
       | none => []) ++ renderAux bindings none rest
    else renderAux bindings (some (c :: acc)) (c2 :: rest)

/-- Modelled from the spec: the external engine's render operation on a
compiled template, applied to a mapping of variable names to string values. -/
def Tmpl.render (t : Tmpl) (bindings : List (String × String)) : String :=
  String.mk (renderAux bindings none t.source.data)

/-- Python dictionary lookup (first match; YAML mapping keys are unique). -/
def lookupEntry : List (String × YamlValue) → String → Option YamlValue
  | [], _ => none
  | (k1, v1) :: rest, k => if k1 == k then some v1 else lookupEntry rest k

/-- Python's subscript `value[key]` with a string key: on a dictionary it
returns the entry or raises `KeyError(key)`; on any non-mapping value (`None`,
a string, ...) it raises a `TypeError`. -/
def subscript : YamlValue → String → Except LoaderError YamlValue
  | .map entries, k =>
    match lookupEntry entries k with
    | some v => .ok v
    | none => .error (.keyNotFound k)
  | .null, _ => .error (.typeError "value is not subscriptable")
  | .str _, _ => .error (.typeError "value is not subscriptable")

/-- Shallow embedding of `prompt_template_config`.  The external effects are
passed in as oracles: `fs` maps a path to the file's content when it exists and
is readable (`open` raises otherwise), `parse` is `yaml.safe_load` on the
content, and `compile` is the templating engine's compilation step (the source
calls `Template`).  The body follows the source line by line: open the file,
parse it, subscript the document with `"prompts"` and then with `prompt_key`,
and compile the resolved string; each failure short-circuits the rest. -/
def prompt_template_config (fs : String → Option String)
    (parse : String → Except String YamlValue) (compile : String → Tmpl)
    (yaml_file prompt_key : String) : Except LoaderError Tmpl :=
  match fs yaml_file with
  | none => .error (.ioError yaml_file)
  | some content =>
    match parse content with
    | .error msg => .error (.parseError msg)
    | .ok config =>
      match subscript config "prompts" with
      | .error e => .error e
      | .ok prompts =>
        match subscript prompts prompt_key with
        | .error e => .error e
        | .ok template_value =>
          match template_value with
          | .str template_content => .ok (compile template_content)
          | _ => .error (.typeError "template source is not a string")

/-- `true` exactly when the loader result is a `KeyError`-kind failure. -/
def isKeyNotFound : Except LoaderError Tmpl → Bool
  | .error (.keyNotFound _) => true
  | _ => false

/-! ## Concrete fixtures used to instantiate the theorems -/

def reqA : Request := ⟨"GET", "/items", none⟩

def respA : Response := ⟨200, [("content-type", "text/plain")], [104, 105]⟩

def nextOkA : Request → Except String Response := fun _ => .ok respA

def reqB : Request := ⟨"POST", "/checkout", none⟩

def nextErrB : Request → Except String Response := fun _ => .error "downstream failure"

def reqC : Request := ⟨"GET", "/health", none⟩

def nextErrC : Request → Except String Response := fun _ => .error "boom"

/-- The template source of the specification's greeting example,
`"Hello, \x7b\x7b name \x7d\x7d!"`. -/
def greetingSource : String := "Hello, \x7b\x7b name \x7d\x7d!"

/-! ## Claims about the correlation middleware -/

/-- Claim C1: for every request whose downstream handler returns a response,
the value set in the `X-Request-ID` response header, the identifier stored in
`request.state.request_id`, and the identifier embedded verbatim in both the
start and completion log records are all the same string `request_id`. -/
theorem requestId_consistent {ε : Type} (request_id : String) (request : Request)
    (call_next : Request → Except ε Response) (response : Response)
    (h : call_next { request with stateRequestId := some request_id } = .ok response) :
    ((dispatch request_id request call_next).result.toOption.map
      (fun r => getHeader r.headers "X-Request-ID")) = some (some request_id) ∧
    (dispatch request_id request call_next).finalRequest.stateRequestId = some request_id ∧
    (dispatch request_id request call_next).logs =
      ["Request started: " ++ request.method ++ " " ++ request.urlPath ++
         " (request_id: " ++ request_id ++ ")",
       "Request completed: " ++ request.method ++ " " ++ request.urlPath ++
         " (request_id: " ++ request_id ++ ")"] := by
  refine ⟨?_, ?_, ?_⟩
  · simp [dispatch, h, Except.toOption, getHeader_setHeader_self]
  · simp [dispatch, h]
  · simp [dispatch, h, startLog, completedLog]

/-- Witness for C1 at a concrete GET request whose downstream handler returns
a 200 response. -/
theorem requestId_consistent_witness :
    ((dispatch "rid-1" reqA nextOkA).result.toOption.map
      (fun r => getHeader r.headers "X-Request-ID")) = some (some "rid-1") ∧
    (dispatch "rid-1" reqA nextOkA).finalRequest.stateRequestId = some "rid-1" ∧
    (dispatch "rid-1" reqA nextOkA).logs =
      ["Request started: " ++ reqA.method ++ " " ++ reqA.urlPath ++
         " (request_id: " ++ "rid-1" ++ ")",
       "Request completed: " ++ reqA.method ++ " " ++ reqA.urlPath ++
         " (request_id: " ++ "rid-1" ++ ")"] :=
  requestId_consistent "rid-1" reqA nextOkA respA rfl

/-- Counterexample to claim C2 as stated: at a concrete request whose
downstream handler raises, the middleware emits one log record, not two — the
raise propagates before the completion log line is reached. -/
theorem two_logs_refuted :
    (dispatch "rid-err" reqB nextErrB).logs.length = 1 ∧
    (dispatch "rid-err" reqB nextErrB).logs.length ≠ 2 := by
  constructor <;> decide

/-- Claim C2 as amended: when the downstream handler returns a response the
middleware emits exactly two log records, the start record then the completion
record; when the downstream handler raises, only the start record is emitted. -/
theorem logs_per_outcome {ε : Type} (request_id : String) (request : Request)
    (call_next : Request → Except ε Response) :
    (dispatch request_id request call_next).logs =
      match call_next { request with stateRequestId := some request_id } with
      | .ok _ => [startLog { request with stateRequestId := some request_id } request_id,
                  completedLog { request with stateRequestId := some request_id } request_id]
      | .error _ => [startLog { request with stateRequestId := some request_id } request_id] := by
  cases h : call_next { request with stateRequestId := some request_id } <;> simp [dispatch, h]

/-- Claim C3: for every request whose downstream handler returns a response,
the middleware returns that response with the `X-Request-ID` header set to the
identifier and nothing else changed: the status code, the body bytes, and
every header under a different name are as the downstream handler produced. -/
theorem response_frame {ε : Type} (request_id : String) (request : Request)
    (call_next : Request → Except ε Response) (response : Response)
    (h : call_next { request with stateRequestId := some request_id } = .ok response) :
    (dispatch request_id request call_next).result.toOption.map Response.status =
      some response.status ∧
    (dispatch request_id request call_next).result.toOption.map Response.body =
      some response.body ∧
    (dispatch request_id request call_next).result.toOption.map
      (fun r => getHeader r.headers "X-Request-ID") = some (some request_id) ∧
    ∀ k : String, lowerKey k ≠ lowerKey "X-Request-ID" →
      (dispatch request_id request call_next).result.toOption.map
        (fun r => getHeader r.headers k) = some (getHeader response.headers k) := by
  refine ⟨?_, ?_, ?_, ?_⟩
  · simp [dispatch, h, Except.toOption]
  · simp [dispatch, h, Except.toOption]
  · simp [dispatch, h, Except.toOption, getHeader_setHeader_self]
  · intro k hk
    simp [dispatch, h, Except.toOption, getHeader_setHeader_ne _ _ _ _ hk]

/-- Witness for C3 at a concrete request: status, body, and the unrelated
`content-type` header are unchanged, while `X-Request-ID` carries the id. -/
theorem response_frame_witness :
    (dispatch "rid-3" reqA nextOkA).result.toOption.map Response.status = some 200 ∧
    (dispatch "rid-3" reqA nextOkA).result.toOption.map Response.body = some [104, 105] ∧
    (dispatch "rid-3" reqA nextOkA).result.toOption.map
      (fun r => getHeader r.headers "X-Request-ID") = some (some "rid-3") ∧
    (dispatch "rid-3" reqA nextOkA).result.toOption.map
      (fun r => getHeader r.headers "content-type") = some (some "text/plain") := by
  obtain ⟨h1, h2, h3, h4⟩ := response_frame "rid-3" reqA nextOkA respA rfl
  exact ⟨h1, h2, h3, h4 "content-type" (by decide)⟩

/-- Claim C4: for every request whose downstream handler raises a failure, the
middleware propagates that failure unmodified; since no response is produced,
no `X-Request-ID` header is attached to any error response by this component. -/
theorem failure_propagates {ε : Type} (request_id : String) (request : Request)
    (call_next : Request → Except ε Response) (e : ε)
    (h : call_next { request with stateRequestId := some request_id } = .error e) :
    (dispatch request_id request call_next).result = .error e := by
  simp [dispatch, h]

/-- Witness for C4 at a concrete request whose downstream handler raises. -/
theorem failure_propagates_witness :
    (dispatch "rid-4" reqB nextErrB).result = .error "downstream failure" :=
  failure_propagates "rid-4" reqB nextErrB "downstream failure" rfl

/-- Counterexample to claim C5 as stated: at a concrete request whose
downstream handler raises, the emitted log records are not the two claimed
records — only the start record is emitted. -/
theorem log_format_refuted :
    (dispatch "rid-5" reqC nextErrC).logs ≠
      ["Request started: GET /health (request_id: rid-5)",
       "Request completed: GET /health (request_id: rid-5)"] ∧
    (dispatch "rid-5" reqC nextErrC).logs =
      ["Request started: GET /health (request_id: rid-5)"] := by
  constructor <;> decide

/-- Claim C5 as amended: when the downstream handler returns a response the
two emitted log records are exactly `Request started: <METHOD> <PATH>
(request_id: <id>)` followed by `Request completed: <METHOD> <PATH>
(request_id: <id>)`; when it raises, only the start record, in that same form,
is emitted. -/
theorem log_format_per_outcome {ε : Type} (request_id : String) (request : Request)
    (call_next : Request → Except ε Response) :
    (dispatch request_id request call_next).logs =
      match call_next { request with stateRequestId := some request_id } with
      | .ok _ =>
        ["Request started: " ++ request.method ++ " " ++ request.urlPath ++
           " (request_id: " ++ request_id ++ ")",
         "Request completed: " ++ request.method ++ " " ++ request.urlPath ++
           " (request_id: " ++ request_id ++ ")"]
      | .error _ =>
        ["Request started: " ++ request.method ++ " " ++ request.urlPath ++
           " (request_id: " ++ request_id ++ ")"] := by
  cases h : call_next { request with stateRequestId := some request_id } <;>
    simp [dispatch, h, startLog, completedLog]

/-- Claim C10: for every request whose downstream handler raises, the side
effects performed before the suspension point persist — the identifier is
already stored in `request.state.request_id` and the start log record has
already been emitted — so the failure path is not side-effect-free. -/
theorem failure_side_effects_persist {ε : Type} (request_id : String) (request : Request)
    (call_next : Request → Except ε Response) (e : ε)
    (h : call_next { request with stateRequestId := some request_id } = .error e) :
    (dispatch request_id request call_next).finalRequest.stateRequestId = some request_id ∧
    (dispatch request_id request call_next).logs =
      [startLog { request with stateRequestId := some request_id } request_id] := by
  constructor <;> simp [dispatch, h]

/-- Witness for C10 at a concrete request whose downstream handler raises. -/
theorem failure_side_effects_persist_witness :
    (dispatch "rid-10" reqB nextErrB).finalRequest.stateRequestId = some "rid-10" ∧
    (dispatch "rid-10" reqB nextErrB).logs =
      [startLog { reqB with stateRequestId := some "rid-10" } "rid-10"] :=
  failure_side_effects_persist "rid-10" reqB nextErrB "downstream failure" rfl

/-! ## Claims about the prompt template loader -/

/-- Claim C6: given a YAML document `{"prompts": {"greeting": "Hello, \x7b\x7b
name \x7d\x7d!"}}` at the supplied path and the lookup key `"greeting"`,
`prompt_template_config` returns the compiled greeting template, which renders
with the binding `{"name": "World"}` to `"Hello, World!"`. -/
theorem greeting_template_renders (fs : String → Option String)
    (parse : String → Except String YamlValue) (yaml_file content : String)
    (hfs : fs yaml_file = some content)
    (hparse : parse content =
      .ok (.map [("prompts", .map [("greeting", .str greetingSource)])])) :
    prompt_template_config fs parse Template yaml_file "greeting" =
      .ok (Template greetingSource) ∧
    (Template greetingSource).render [("name", "World")] = "Hello, World!" := by
  constructor
  · simp only [prompt_template_config, hfs, hparse]
    rfl
  · rfl

/-- Witness for C6 with a concrete one-file file system and the concrete
parse of the example document. -/
theorem greeting_template_renders_witness :
    prompt_template_config (fun _ => some "prompts:\n  greeting: Hello, \x7b\x7b name \x7d\x7d!\n")
      (fun _ => .ok (.map [("prompts", .map [("greeting", .str greetingSource)])]))
      Template "prompts.yaml" "greeting" = .ok (Template greetingSource) ∧
    (Template greetingSource).render [("name", "World")] = "Hello, World!" :=
  greeting_template_renders
    (fun _ => some "prompts:\n  greeting: Hello, \x7b\x7b name \x7d\x7d!\n")
    (fun _ => .ok (.map [("prompts", .map [("greeting", .str greetingSource)])]))
    "prompts.yaml" "prompts:\n  greeting: Hello, \x7b\x7b name \x7d\x7d!\n" rfl rfl

/-- Claim C7: whenever the parsed document is a mapping in which the top-level
`prompts` key, or the requested prompt key under a `prompts` mapping, is
absent, `prompt_template_config` fails with the `KeyNotFound` kind — and it
does so for every compilation oracle, so no template compilation takes place. -/
theorem missing_key_fails (fs : String → Option String)
    (parse : String → Except String YamlValue) (yaml_file prompt_key content : String)
    (entries : List (String × YamlValue))
    (hfs : fs yaml_file = some content)
    (hparse : parse content = .ok (.map entries))
    (hmiss : lookupEntry entries "prompts" = none ∨
      ∃ pentries, lookupEntry entries "prompts" = some (.map pentries) ∧
        lookupEntry pentries prompt_key = none) :
    ∀ compile : String → Tmpl,
      isKeyNotFound (prompt_template_config fs parse compile yaml_file prompt_key) = true := by
  intro compile
  rcases hmiss with hm | ⟨pentries, hp, hm⟩
  · simp [prompt_template_config, hfs, hparse, subscript, hm, isKeyNotFound]
  · simp [prompt_template_config, hfs, hparse, subscript, hp, hm, isKeyNotFound]

/-- Witness for C7 with a concrete document that has no `prompts` key. -/
theorem missing_key_fails_witness :
    isKeyNotFound (prompt_template_config (fun _ => some "other: x")
      (fun _ => .ok (.map [("other", .str "x")])) Template
      "prompts.yaml" "greeting") = true :=
  missing_key_fails (fun _ => some "other: x")
    (fun _ => .ok (.map [("other", .str "x")])) "prompts.yaml" "greeting" "other: x"
    [("other", .str "x")] rfl rfl (Or.inl rfl) Template

/-- Claim C8: for every path the file system cannot serve, the loader fails
with the `IOError` kind — and it does so for every parse and compilation
oracle, so the YAML parse step is never reached. -/
theorem missing_file_fails (fs : String → Option String) (yaml_file prompt_key : String)
    (h : fs yaml_file = none) :
    ∀ (parse : String → Except String YamlValue) (compile : String → Tmpl),
      prompt_template_config fs parse compile yaml_file prompt_key =
        .error (.ioError yaml_file) := by
  intro parse compile
  simp [prompt_template_config, h]

/-- Witness for C8 with an empty file system. -/
theorem missing_file_fails_witness :
    prompt_template_config (fun _ => none) (fun _ => .error "unreached") Template
      "missing.yaml" "greeting" = .error (.ioError "missing.yaml") :=
  missing_file_fails (fun _ => none) "missing.yaml" "greeting" rfl
    (fun _ => .error "unreached") Template

/-- Claim C9: when the YAML file parses to a non-mapping value — in particular
`None`, which `yaml.safe_load` returns for an empty file — the loader fails
with the `TypeError` kind from subscripting a non-mapping value, not with the
`KeyNotFound` kind. -/
theorem non_mapping_type_error (fs : String → Option String)
    (parse : String → Except String YamlValue) (yaml_file prompt_key content : String)
    (v : YamlValue)
    (hfs : fs yaml_file = some content)
    (hparse : parse content = .ok v)
    (hv : ∀ entries, v ≠ .map entries) :
    ∀ compile : String → Tmpl,
      prompt_template_config fs parse compile yaml_file prompt_key =
        .error (.typeError "value is not subscriptable") ∧
      isKeyNotFound (prompt_template_config fs parse compile yaml_file prompt_key) = false := by
  intro compile
  cases v with
  | map entries => exact absurd rfl (hv entries)
  | null =>
    refine ⟨?_, ?_⟩ <;> simp [prompt_template_config, hfs, hparse, subscript, isKeyNotFound]
  | str s =>
    refine ⟨?_, ?_⟩ <;> simp [prompt_template_config, hfs, hparse, subscript, isKeyNotFound]

/-- Witness for C9 with an empty file, parsed to `null`. -/
theorem non_mapping_type_error_witness :
    prompt_template_config (fun _ => some "") (fun _ => .ok .null) Template
      "prompts.yaml" "greeting" = .error (.typeError "value is not subscriptable") ∧
    isKeyNotFound (prompt_template_config (fun _ => some "") (fun _ => .ok .null) Template
      "prompts.yaml" "greeting") = false :=
  non_mapping_type_error (fun _ => some "") (fun _ => .ok .null) "prompts.yaml" "greeting"
    "" .null rfl rfl (fun _ h => nomatch h) Template

end Spec2Proof
